import Mathlib

/-
Verification of the Instagram media resolver core.

This file is a shallow embedding of the resolution engine of the repository:
the URL classifier (`extractMediaId`, `extractMediaType`), the four upstream
strategies and their parsers (`tryGraphQLEndpoint` / `parseGraphQLMedia`,
`tryApiEndpoint` / `parseApiMedia`, `scrapeMediaPage`, `tryJsonEndpoint`),
the orchestrating `getMediaInfo`, and the route-level cache and in-flight
deduplication (`getCacheKey`, `setCachedMedia`, the pending-request map).

Network interactions are modelled by an explicit environment (`Fetched`,
`Env`): each upstream fetch inside a strategy is represented by the value it
produced (a thrown exception, a non-ok response, or a parsed body).  All
definitions are executable, so theorems can be instantiated on concrete
inputs by evaluation.
-/

namespace Insta

/-! ## Generic string machinery

The source matches fixed regular expressions against page bodies and URLs.
The patterns used are of two simple shapes, embedded here as executable
scanners over `List Char`:
  * a literal prefix followed by a nonempty capture delimited by a
    one-character class (for patterns such as `"video_url":"([^"]+)"`), and
  * the meta-tag shape `<meta[^>]+property="..."[^>]+content="([^"]+)"`.
Scanning proceeds left to right: the first position at which the whole
pattern matches wins, as with a JavaScript `String.match`.
-/

/-- First index at which `pat` occurs as a sublist of `s`. -/
def firstOcc (pat : List Char) : List Char → Option Nat
  | [] => none
  | c :: rest =>
    if pat.isPrefixOf (c :: rest) then some 0
    else (firstOcc pat rest).map (· + 1)

/-- Whether `pat` occurs as a sublist of `s`. -/
def containsSub (pat s : List Char) : Bool :=
  (firstOcc pat s).isSome

/-- First index `≥ 1` at which `pat` occurs in `s`. -/
def firstOccFrom1 (pat : List Char) : List Char → Option Nat
  | [] => none
  | _ :: rest => (firstOcc pat rest).map (· + 1)

/-- Embeds `html.match(/PRE([^"]+)"/)` where `PRE` is a literal: scan for the
first position where the literal `pre` is followed by a nonempty run of
non-quote characters terminated by a quote, and return that run. -/
def captureQuoted (pre : List Char) : List Char → Option (List Char)
  | [] => none
  | c :: rest =>
    if pre.isPrefixOf (c :: rest) then
      let after := (c :: rest).drop pre.length
      let cap := after.takeWhile (fun ch => ch ≠ '"')
      if cap ≠ [] ∧ cap.length < after.length then some cap
      else captureQuoted pre rest
    else captureQuoted pre rest

/-- Attempt, at the current position, the pattern
`<meta[^>]+property="PROP"[^>]+content="([^"]+)"`: after the literal
`<meta`, both gaps and both attribute literals must lie inside the run of
non-`>` characters, and the capture is the nonempty run of non-quote
characters after `content="`, terminated by a quote. -/
def metaCaptureAt (prop : String) (s : List Char) : Option (List Char) :=
  if ("<meta".toList).isPrefixOf s then
    let t := s.drop 5
    let run := t.takeWhile (fun ch => ch ≠ '>')
    let propLit := ("property=\"" ++ prop ++ "\"").toList
    match firstOccFrom1 propLit run with
    | none => none
    | some i =>
      let afterProp := i + propLit.length
      match firstOccFrom1 ("content=\"".toList) (run.drop afterProp) with
      | none => none
      | some j =>
        let capStart := afterProp + j + ("content=\"".toList).length
        let after := t.drop capStart
        let cap := after.takeWhile (fun ch => ch ≠ '"')
        if cap ≠ [] ∧ cap.length < after.length then some cap else none
  else none

/-- Embeds `html.match(/<meta[^>]+property="PROP"[^>]+content="([^"]+)"/)`:
try `metaCaptureAt` at every position, left to right. -/
def metaCapture (prop : String) : List Char → Option (List Char)
  | [] => none
  | c :: rest =>
    match metaCaptureAt prop (c :: rest) with
    | some cap => some cap
    | none => metaCapture prop rest

/-- Fueled global replacement: replace every occurrence of `pat` by `rep`,
scanning left to right and skipping over each replacement, as JavaScript
`String.replace` with a `/g` literal pattern does.  The fuel argument makes
the recursion structural; `replaceAll` supplies enough fuel. -/
def replaceAllGo (pat rep : List Char) : Nat → List Char → List Char
  | _, [] => []
  | 0, s => s
  | fuel + 1, c :: rest =>
    if pat ≠ [] ∧ pat.isPrefixOf (c :: rest) then
      rep ++ replaceAllGo pat rep fuel ((c :: rest).drop pat.length)
    else
      c :: replaceAllGo pat rep fuel rest

/-- Embeds `s.replace(/pat/g, rep)` for a literal pattern. -/
def replaceAll (pat rep s : List Char) : List Char :=
  replaceAllGo pat rep s.length s

/-- Embeds `.replace(/\\u0026/g, '&').replace(/\\\//g, '/')`, the unescaping
the source applies to URLs extracted from inline JSON. -/
def jsUnescapeJson (s : String) : String :=
  String.mk (replaceAll "\\/".toList "/".toList
    (replaceAll "\\u0026".toList "&".toList s.data))

/-- Embeds `.replace(/&amp;/g, '&')`, the unescaping the source applies to
URLs extracted from Open Graph meta tags. -/
def jsUnescapeAmp (s : String) : String :=
  String.mk (replaceAll "&amp;".toList "&".toList s.data)

/-! ## URL classifier -/

/-- `[A-Za-z0-9_]`, the JavaScript word character class. -/
def isWordChar (c : Char) : Bool := c.isAlpha || c.isDigit || c = '_'

/-- `[A-Za-z0-9_-]`, the character class of post and reel shortcodes. -/
def isIdChar (c : Char) : Bool := isWordChar c || c = '-'

/-- `[\w.]`, the character class of story user handles. -/
def isWordDot (c : Char) : Bool := isWordChar c || c = '.'

/-- Attempt `\/(p|reel|reels)\/([A-Za-z0-9_-]+)` at the current position:
one of the three kind markers followed by a nonempty shortcode. -/
def postReelAt (s : List Char) : Option (List Char) :=
  let tryPre (pre : String) : Option (List Char) :=
    if (pre.toList).isPrefixOf s then
      let cap := (s.drop pre.length).takeWhile isIdChar
      if cap ≠ [] then some cap else none
    else none
  match tryPre "/p/" with
  | some cap => some cap
  | none =>
    match tryPre "/reel/" with
    | some cap => some cap
    | none => tryPre "/reels/"

/-- Scan for the first match of `\/(p|reel|reels)\/([A-Za-z0-9_-]+)`. -/
def extractPostReelId : List Char → Option (List Char)
  | [] => none
  | c :: rest =>
    match postReelAt (c :: rest) with
    | some cap => some cap
    | none => extractPostReelId rest

/-- Attempt `\/stories\/[\w.]+\/(\d+)` at the current position: the literal
`/stories/`, a nonempty handle of word-or-dot characters, a slash, and a
nonempty run of digits, which is the capture. -/
def storiesAt (s : List Char) : Option (List Char) :=
  if ("/stories/".toList).isPrefixOf s then
    let t := s.drop 9
    let seg := t.takeWhile isWordDot
    if seg ≠ [] then
      match t.drop seg.length with
      | '/' :: v =>
        let digits := v.takeWhile Char.isDigit
        if digits ≠ [] then some digits else none
      | _ => none
    else none
  else none

/-- Scan for the first match of `\/stories\/[\w.]+\/(\d+)`. -/
def extractStoriesId : List Char → Option (List Char)
  | [] => none
  | c :: rest =>
    match storiesAt (c :: rest) with
    | some cap => some cap
    | none => extractStoriesId rest

/-- Embeds `extractMediaId`: the post/reel pattern is tried over the whole
URL first, then the stories pattern; the captured id is returned. -/
def extractMediaId (url : String) : Option String :=
  match extractPostReelId url.data with
  | some cap => some (String.mk cap)
  | none => (extractStoriesId url.data).map String.mk

/-- Embeds `extractMediaType`: substring checks on the URL, in source order. -/
def extractMediaType (url : String) : Option String :=
  if containsSub "/reel/".toList url.data || containsSub "/reels/".toList url.data then
    some "reel"
  else if containsSub "/p/".toList url.data then some "post"
  else if containsSub "/stories/".toList url.data then some "story"
  else none

/-! ## Data model -/

/-- Embeds the `MediaInfo` interface.  Optional fields are `undefined` when
absent in the source and are modelled by `Option`. -/
structure MediaInfo where
  id : String
  type : String
  url : String
  thumbnailUrl : Option String := none
  width : Option Nat := none
  height : Option Nat := none
  caption : Option String := none
  username : Option String := none
deriving DecidableEq, Repr

/-- Embeds the `DownloadResult` interface. -/
structure DownloadResult where
  success : Bool
  media : Option (List MediaInfo) := none
  error : Option String := none
deriving DecidableEq, Repr

/-- JavaScript truthiness of an optional session-id string: `undefined` and
the empty string are falsy, every other string is truthy. -/
def jsTruthy : Option String → Bool
  | none => false
  | some s => !(s == "")

/-! ## GraphQL parser

`parseGraphQLMedia` reads these fields of the `shortcode_media` object:
`__typename`, `is_video`, `id`, `video_url`, `display_url`,
`edge_sidecar_to_children?.edges` (each edge a `node` with `id`, `is_video`,
`video_url`, `display_url`) and `owner?.username`.  The embedding types
exactly those fields; fields the code reads without a presence check are
plain, fields behind an optional chain or a truthiness check are `Option`.
-/

/-- One `node` of `edge_sidecar_to_children.edges`. -/
structure GraphChild where
  id : String
  is_video : Bool
  video_url : String
  display_url : String
deriving DecidableEq, Repr

/-- The `shortcode_media` object, restricted to the fields the source reads. -/
structure GraphMedia where
  id : String
  __typename : String
  is_video : Bool
  video_url : String
  display_url : String
  edge_children : Option (List GraphChild) := none
  owner_username : Option String := none
deriving DecidableEq, Repr

/-- Embeds `parseGraphQLMedia`: a `GraphSidecar` yields one asset per edge
node, classified by the node's own `is_video`; otherwise a single video or
image asset is built from the top-level fields.  Success requires a nonempty
asset list. -/
def parseGraphQLMedia (media : GraphMedia) : DownloadResult :=
  let result : List MediaInfo :=
    if media.__typename = "GraphSidecar" then
      match media.edge_children with
      | some edges =>
        edges.map (fun node =>
          if node.is_video then
            { id := node.id, type := "video", url := node.video_url,
              thumbnailUrl := some node.display_url }
          else
            { id := node.id, type := "image", url := node.display_url })
      | none => []
    else if media.is_video then
      [{ id := media.id, type := "video", url := media.video_url,
         thumbnailUrl := some media.display_url, username := media.owner_username }]
    else
      [{ id := media.id, type := "image", url := media.display_url,
         username := media.owner_username }]
  if result.length > 0 then { success := true, media := some result }
  else { success := false, error := some "Could not parse media" }

/-! ## Mobile-API parser -/

/-- One element of a `video_versions` array. -/
structure VideoVersion where
  url : String
  width : Option Nat := none
  height : Option Nat := none
deriving DecidableEq, Repr

/-- One element of an `image_versions2.candidates` array. -/
structure ImageCandidate where
  url : String
deriving DecidableEq, Repr

/-- An `image_versions2` object. -/
structure ImageVersions2 where
  candidates : List ImageCandidate
deriving DecidableEq, Repr

/-- One element of a `carousel_media` array, restricted to the fields the
source reads. -/
structure CarouselChild where
  pk : Option String := none
  video_versions : Option (List VideoVersion) := none
  image_versions2 : Option ImageVersions2 := none
deriving DecidableEq, Repr

/-- An API `item`, restricted to the fields the source reads.
`caption_text` stands for `caption?.text` and `user_username` for
`user?.username`. -/
structure ApiItem where
  pk : Option String := none
  video_versions : Option (List VideoVersion) := none
  carousel_media : Option (List CarouselChild) := none
  image_versions2 : Option ImageVersions2 := none
  caption_text : Option String := none
  user_username : Option String := none
deriving DecidableEq, Repr

/-- The assets contributed by one carousel child in `parseApiMedia`: a video
asset if the child has a nonempty `video_versions`, else an image asset if
it has `image_versions2` with a first candidate, else nothing. -/
def parseCarouselChild (carouselItem : CarouselChild) : List MediaInfo :=
  match carouselItem.video_versions with
  | some (v :: _) =>
    let candidates := (carouselItem.image_versions2.map (fun iv => iv.candidates)).getD []
    [{ id := carouselItem.pk.getD "unknown", type := "video", url := v.url,
       thumbnailUrl := (candidates.head?).map (fun cand => cand.url) }]
  | _ =>
    match carouselItem.image_versions2 with
    | some iv =>
      match iv.candidates.head? with
      | some cand =>
        [{ id := carouselItem.pk.getD "unknown", type := "image", url := cand.url }]
      | none => []
    | none => []

/-- Embeds `parseApiMedia`: a missing item is a failure; a nonempty
`video_versions` takes the video branch; else a nonempty `carousel_media`
enumerates its children in order; else `image_versions2` yields a single
image.  Success requires a nonempty asset list. -/
def parseApiMedia : Option ApiItem → DownloadResult
  | none => { success := false, error := some "No media items found" }
  | some item =>
    let media : List MediaInfo :=
      match item.video_versions with
      | some (bestVideo :: _) =>
        let candidates := (item.image_versions2.map (fun iv => iv.candidates)).getD []
        [{ id := item.pk.getD "unknown", type := "video", url := bestVideo.url,
           thumbnailUrl := (candidates.head?).map (fun cand => cand.url),
           width := bestVideo.width, height := bestVideo.height,
           caption := item.caption_text, username := item.user_username }]
      | _ =>
        match item.carousel_media with
        | some (c :: cs) => (c :: cs).flatMap parseCarouselChild
        | _ =>
          match item.image_versions2 with
          | some iv =>
            match iv.candidates.head? with
            | some cand =>
              [{ id := item.pk.getD "unknown", type := "image", url := cand.url,
                 caption := item.caption_text, username := item.user_username }]
            | none => []
          | none => []
    if media.length > 0 then { success := true, media := some media }
    else { success := false, error := some "Could not parse media from API response" }

/-! ## Page-scrape extraction -/

/-- Embeds the pattern-extraction body of `scrapeMediaPage`: the five
patterns are applied over the page body in source order, each of patterns 2
to 5 guarded by `media.length == 0`; inline-JSON captures (patterns 1, 2
and 4) get the JSON unescaping and meta-tag captures (patterns 3 and 5) get
the `&amp;` unescaping. -/
def scrapeExtract (mediaId : String) (html : String) : List MediaInfo :=
  let media : List MediaInfo := []
  let media : List MediaInfo :=
    match captureQuoted ("\"video_url\":\"".toList) html.data with
    | some cap =>
      media ++ [{ id := mediaId, type := "video", url := jsUnescapeJson (String.mk cap) }]
    | none => media
  let media : List MediaInfo :=
    if media.length = 0 then
      match captureQuoted ("\"contentUrl\":\"".toList) html.data with
      | some cap =>
        media ++ [{ id := mediaId, type := "video", url := jsUnescapeJson (String.mk cap) }]
      | none => media
    else media
  let media : List MediaInfo :=
    if media.length = 0 then
      match metaCapture "og:video" html.data with
      | some cap =>
        media ++ [{ id := mediaId, type := "video", url := jsUnescapeAmp (String.mk cap) }]
      | none => media
    else media
  let media : List MediaInfo :=
    if media.length = 0 then
      match captureQuoted ("\"display_url\":\"".toList) html.data with
      | some cap =>
        media ++ [{ id := mediaId, type := "image", url := jsUnescapeJson (String.mk cap) }]
      | none => media
    else media
  let media : List MediaInfo :=
    if media.length = 0 then
      match metaCapture "og:image" html.data with
      | some cap =>
        media ++ [{ id := mediaId, type := "image", url := jsUnescapeAmp (String.mk cap) }]
      | none => media
    else media
  media

/-! ## Strategies

Each strategy performs one or two upstream fetches inside a `try` block and
returns a structured `DownloadResult`; any exception inside the block is
caught and converted to a fixed failure.  A fetch (including reading and
parsing its body) is modelled by the value it produced: -/

/-- Outcome of one upstream fetch: the call (or reading its body) threw, the
response was not ok, or it was ok with a parsed payload. -/
inductive Fetched (α : Type) where
  | thrown (e : String)
  | notOk
  | ok (data : α)
deriving DecidableEq, Repr

/-- The `catch` wrapper of a strategy body: exceptions become a failure with
the strategy's fixed message. -/
def catchWith (msg : String) : Except String DownloadResult → DownloadResult
  | .ok r => r
  | .error _ => { success := false, error := some msg }

/-- Body of `tryGraphQLEndpoint` before its `catch`: the payload models
`data?.data?.shortcode_media`. -/
def tryGraphQLEndpointE (g : Fetched (Option GraphMedia)) : Except String DownloadResult :=
  match g with
  | .thrown e => .error e
  | .notOk => .ok { success := false, error := some "GraphQL request failed" }
  | .ok none => .ok { success := false, error := some "No media in GraphQL response" }
  | .ok (some m) => .ok (parseGraphQLMedia m)

/-- Embeds `tryGraphQLEndpoint`. -/
def tryGraphQLEndpoint (g : Fetched (Option GraphMedia)) : DownloadResult :=
  catchWith "GraphQL endpoint failed" (tryGraphQLEndpointE g)

/-- Body of `tryApiEndpoint` before its `catch`: the primary numeric-id
fetch, falling back to the shortcode fetch when the primary response is not
ok.  Each payload models the `items` field of the response body;
`data.items?.[0]` is `Option.bind · List.head?`. -/
def tryApiEndpointE (primary alt : Fetched (Option (List ApiItem))) :
    Except String DownloadResult :=
  match primary with
  | .thrown e => .error e
  | .ok data => .ok (parseApiMedia (data.bind List.head?))
  | .notOk =>
    match alt with
    | .thrown e => .error e
    | .notOk => .ok { success := false, error := some "API request failed" }
    | .ok altData => .ok (parseApiMedia (altData.bind List.head?))

/-- Embeds `tryApiEndpoint`. -/
def tryApiEndpoint (primary alt : Fetched (Option (List ApiItem))) : DownloadResult :=
  catchWith "API request failed" (tryApiEndpointE primary alt)

/-- Body of `scrapeMediaPage` before its `catch`: fetch the page, then run
the five extraction patterns; an empty extraction is a failure. -/
def scrapeMediaPageE (url : String) (page : Fetched String) : Except String DownloadResult :=
  match page with
  | .thrown e => .error e
  | .notOk => .ok { success := false, error := some "Could not fetch page" }
  | .ok html =>
    let mediaId := (extractMediaId url).getD "unknown"
    let media := scrapeExtract mediaId html
    if media.length > 0 then .ok { success := true, media := some media }
    else .ok { success := false, error := some "No media found in page" }

/-- Embeds `scrapeMediaPage`. -/
def scrapeMediaPage (url : String) (page : Fetched String) : DownloadResult :=
  catchWith "Failed to scrape page" (scrapeMediaPageE url page)

/-- Body of `tryJsonEndpoint` before its `catch`: the payload models the
`items` field of the `?__a=1&__d=dis` response; a missing or empty `items`
is a failure, otherwise `items[0]` is parsed as an API item. -/
def tryJsonEndpointE (j : Fetched (Option (List ApiItem))) : Except String DownloadResult :=
  match j with
  | .thrown e => .error e
  | .notOk => .ok { success := false, error := some "JSON endpoint failed" }
  | .ok none => .ok { success := false, error := some "No items in JSON response" }
  | .ok (some []) => .ok { success := false, error := some "No items in JSON response" }
  | .ok (some (item0 :: _)) => .ok (parseApiMedia (some item0))

/-- Embeds `tryJsonEndpoint`. -/
def tryJsonEndpoint (j : Fetched (Option (List ApiItem))) : DownloadResult :=
  catchWith "JSON endpoint failed" (tryJsonEndpointE j)

/-! ## Resolver orchestration (`getMediaInfo`) -/

/-- The upstream environment of one `getMediaInfo` run: what each fetch
performed by the strategies would produce. -/
structure Env where
  graphql : Fetched (Option GraphMedia)
  apiPrimary : Fetched (Option (List ApiItem))
  apiAlt : Fetched (Option (List ApiItem))
  page : Fetched String
  jsonEp : Fetched (Option (List ApiItem))
deriving DecidableEq, Repr

/-- Names for the four strategy attempts, in the source order of
`getMediaInfo`. -/
inductive Strat where
  | graphQL
  | mobileApi
  | pageScrape
  | semiPublicJson
deriving DecidableEq, Repr

/-- The aggregate failure returned when every strategy failed; its message
depends on the truthiness of the session id. -/
def exhaustedFailure (sessionId : Option String) : DownloadResult :=
  { success := false,
    error := some (if jsTruthy sessionId then
      "Could not fetch media. The post may be private or the session may have expired."
    else
      "Could not fetch media. Try adding your Instagram Session ID for private content.") }

/-- Embeds `getMediaInfo`, instrumented with the list of strategies that are
attempted.  The two `if (sessionId)` guards of the source test the same
unmodified value and are merged into one branch; within each branch the
strategies run in source order, returning at the first success. -/
def getMediaInfoT (url : String) (sessionId : Option String) (env : Env) :
    DownloadResult × List Strat :=
  match extractMediaId url with
  | none => ({ success := false, error := some "Could not extract media ID from URL" }, [])
  | some _ =>
    if jsTruthy sessionId then
      let graphqlResult := tryGraphQLEndpoint env.graphql
      if graphqlResult.success then (graphqlResult, [Strat.graphQL])
      else
        let apiResult := tryApiEndpoint env.apiPrimary env.apiAlt
        if apiResult.success then (apiResult, [Strat.graphQL, Strat.mobileApi])
        else
          let scrapeResult := scrapeMediaPage url env.page
          if scrapeResult.success then
            (scrapeResult, [Strat.graphQL, Strat.mobileApi, Strat.pageScrape])
          else
            let jsonResult := tryJsonEndpoint env.jsonEp
            if jsonResult.success then
              (jsonResult, [Strat.graphQL, Strat.mobileApi, Strat.pageScrape,
                Strat.semiPublicJson])
            else
              (exhaustedFailure sessionId, [Strat.graphQL, Strat.mobileApi,
                Strat.pageScrape, Strat.semiPublicJson])
    else
      let scrapeResult := scrapeMediaPage url env.page
      if scrapeResult.success then (scrapeResult, [Strat.pageScrape])
      else
        let jsonResult := tryJsonEndpoint env.jsonEp
        if jsonResult.success then (jsonResult, [Strat.pageScrape, Strat.semiPublicJson])
        else (exhaustedFailure sessionId, [Strat.pageScrape, Strat.semiPublicJson])

/-- Embeds `getMediaInfo` proper: the result component of the instrumented
run. -/
def getMediaInfo (url : String) (sessionId : Option String) (env : Env) : DownloadResult :=
  (getMediaInfoT url sessionId env).1

/-! ## Specification-side chain view

A clean fold over an explicit strategy list, used to state that
`getMediaInfoT` is ordered fallback with short-circuit on first success. -/

/-- The result each strategy produces in a fixed environment. -/
def stratRun (url : String) (env : Env) : Strat → DownloadResult
  | .graphQL => tryGraphQLEndpoint env.graphql
  | .mobileApi => tryApiEndpoint env.apiPrimary env.apiAlt
  | .pageScrape => scrapeMediaPage url env.page
  | .semiPublicJson => tryJsonEndpoint env.jsonEp

/-- Ordered fallback over a strategy list: return the first success together
with the attempts made so far; if none succeeds, return the fallback. -/
def runChain (f : Strat → DownloadResult) (fallback : DownloadResult) :
    List Strat → DownloadResult × List Strat
  | [] => (fallback, [])
  | s :: rest =>
    if (f s).success then (f s, [s])
    else
      let r := runChain f fallback rest
      (r.1, s :: r.2)

/-- The strategy order of `getMediaInfo`: the two credential-gated
strategies run only when the session id is truthy. -/
def chainOrder (sessionId : Option String) : List Strat :=
  if jsTruthy sessionId then
    [Strat.graphQL, Strat.mobileApi, Strat.pageScrape, Strat.semiPublicJson]
  else [Strat.pageScrape, Strat.semiPublicJson]

/-! ## Route-level headers, cache key, cache and deduplication -/

/-- Embeds `buildWebHeaders`: fixed browser headers, plus a `Cookie` header
holding the session id when it is truthy. -/
def buildWebHeaders (sessionId : Option String) : List (String × String) :=
  let headers : List (String × String) := [
    ("User-Agent",
      "Mozilla/5.0 (Windows NT 10.0; Win64; x64) AppleWebKit/537.36 (KHTML, like Gecko) Chrome/120.0.0.0 Safari/537.36"),
    ("Accept",
      "text/html,application/xhtml+xml,application/xml;q=0.9,image/avif,image/webp,image/apng,*/*;q=0.8"),
    ("Accept-Language", "en-US,en;q=0.9"),
    ("Cache-Control", "no-cache"),
    ("Sec-Fetch-Dest", "document"),
    ("Sec-Fetch-Mode", "navigate"),
    ("Sec-Fetch-Site", "none"),
    ("Sec-Fetch-User", "?1")]
  if jsTruthy sessionId then
    headers ++ [("Cookie", "sessionid=" ++ sessionId.getD "")]
  else headers

/-- Embeds `getCacheKey`: the raw URL joined with an `auth` or `public` tag
by the truthiness of the session id. -/
def getCacheKey (url : String) (sessionId : Option String) : String :=
  url ++ ":" ++ (if jsTruthy sessionId then "auth" else "public")

/-- Embeds the `CacheEntry` interface of the route. -/
structure CacheEntry where
  data : DownloadResult
  expires : Nat
deriving DecidableEq, Repr

/-- The route constant `CACHE_TTL = 5 * 60 * 1000` milliseconds. -/
def CACHE_TTL : Nat := 5 * 60 * 1000

/-- The `mediaCache` map, modelled as a partial function from cache keys to
entries. -/
def Cache : Type := String → Option CacheEntry

/-- Embeds `setCachedMedia`: store the result under the key with expiry
`now + CACHE_TTL`. -/
def setCachedMedia (cache : Cache) (cacheKey : String) (data : DownloadResult)
    (now : Nat) : Cache :=
  fun k => if k = cacheKey then some { data := data, expires := now + CACHE_TTL } else cache k

/-- Embeds the caching step of `POST` after the resolution settles:
`if (result.success && result.media) setCachedMedia(cacheKey, result)`.
A missing `media` field is falsy, so only successes carrying a media list
are written; on failure the cache is left untouched. -/
def cacheAfterResolve (cache : Cache) (cacheKey : String) (result : DownloadResult)
    (now : Nat) : Cache :=
  if result.success && result.media.isSome then setCachedMedia cache cacheKey result now
  else cache

/-- State of the `pendingRequests` map of the route, restricted to a single
cache key: whether a promise is registered for the key, how many callers
await it, and how many strategy-chain executions (`getMediaInfo` calls)
have been started. -/
structure PendingState where
  execCount : Nat
  pending : Bool
  waiters : Nat
deriving DecidableEq, Repr

/-- No request has arrived yet for the key. -/
def pendingInit : PendingState := { execCount := 0, pending := false, waiters := 0 }

/-- One caller reaching the deduplication block of `POST` on a cache miss:
if a promise for the key is already pending the caller awaits it, otherwise
the caller starts `getMediaInfo` (one new chain execution) and registers its
promise.  The lookup and the registration are a single synchronous section
of the route handler, so the step is atomic. -/
def arrive (st : PendingState) : PendingState :=
  if st.pending then { st with waiters := st.waiters + 1 }
  else { execCount := st.execCount + 1, pending := true, waiters := 1 }

/-- `n` callers arriving for the same key, each before the resolution
settles. -/
def arrivals : Nat → PendingState
  | 0 => pendingInit
  | n + 1 => arrive (arrivals n)

/-- The shared promise settling with outcome `r`: the `finally` handler
removes the entry from `pendingRequests`, and every awaiting caller receives
the same outcome `r`.  Returns the new state and the outcomes delivered. -/
def settle (st : PendingState) (r : DownloadResult) : PendingState × List DownloadResult :=
  ({ st with pending := false, waiters := 0 }, List.replicate st.waiters r)

/-- State of the whole `pendingRequests` map across keys: the set of cache
keys that currently hold a pending promise, and how many strategy-chain
executions (`getMediaInfo` calls) have been started in total. -/
structure PendingMapState where
  execCount : Nat
  pendingKeys : List String
deriving DecidableEq, Repr

/-- No request has arrived yet for any key. -/
def pendingMapInit : PendingMapState := { execCount := 0, pendingKeys := [] }

/-- One caller with a given URL and session id reaching the deduplication
block of `POST` on a cache miss: the caller's key is `getCacheKey(url,
sessionId)`; if a promise for that key is pending the caller awaits it,
otherwise the caller starts `getMediaInfo` (one new chain execution) and
registers its promise under the key. -/
def arriveAt (st : PendingMapState) (url : String) (sessionId : Option String) :
    PendingMapState :=
  let cacheKey := getCacheKey url sessionId
  if cacheKey ∈ st.pendingKeys then st
  else { execCount := st.execCount + 1, pendingKeys := cacheKey :: st.pendingKeys }

/-- A batch of callers arriving (each before any resolution settles),
identified by their URL and session id. -/
def arrivalsAt : List (String × Option String) → PendingMapState
  | [] => pendingMapInit
  | (url, sid) :: rest => arriveAt (arrivalsAt rest) url sid

/-! ## Retry/backoff executor

Modelled from the spec: the repository sources contain no retry/backoff
executor (no upstream call in `src` is retried); sections 4.3 and 8 of the
specification describe one, and the definitions below follow those words.
`execute(call, maxAttempts = 3)` runs `call` up to `maxAttempts` times: a
success response is returned at once; a rate-limited response waits
`2^attempt * 1000` ms (attempts counted from 0) and retries; another
non-success status is a terminal upstream error; a transport error waits a
flat 1000 ms and retries, surfacing the last error after exhaustion. -/

/-- Modelled from the spec: the responses an upstream HTTP call can produce
(the retry executor distinguishes success, rate-limit, other status, and
transport failure). -/
inductive HttpResponse where
  | ok (body : String)
  | rateLimited
  | otherStatus (code : Nat)
  | transportError (msg : String)
deriving DecidableEq, Repr

/-- Modelled from the spec: the executor either returns a successful
response or fails with an upstream error. -/
inductive ExecResult where
  | success (resp : HttpResponse)
  | upstreamError (detail : String)
deriving DecidableEq, Repr

/-- Modelled from the spec: the executor outcome together with the number of
underlying call attempts made and the delays waited between attempts. -/
structure ExecTrace where
  result : ExecResult
  attempts : Nat
  delays : List Nat
deriving DecidableEq, Repr

/-- Modelled from the spec: run attempts `attempt, attempt+1, ...` with the
given number of attempts remaining. -/
def executeGo (call : Nat → HttpResponse) : Nat → Nat → ExecTrace
  | _, 0 => { result := .upstreamError "no attempts", attempts := 0, delays := [] }
  | attempt, remaining + 1 =>
    match call attempt with
    | .ok body => { result := .success (.ok body), attempts := 1, delays := [] }
    | .rateLimited =>
      if remaining = 0 then
        { result := .upstreamError "rate limited", attempts := 1, delays := [] }
      else
        let t := executeGo call (attempt + 1) remaining
        { result := t.result, attempts := t.attempts + 1,
          delays := (2 ^ attempt * 1000) :: t.delays }
    | .otherStatus code =>
      { result := .upstreamError ("status " ++ toString code), attempts := 1, delays := [] }
    | .transportError msg =>
      if remaining = 0 then
        { result := .upstreamError msg, attempts := 1, delays := [] }
      else
        let t := executeGo call (attempt + 1) remaining
        { result := t.result, attempts := t.attempts + 1, delays := 1000 :: t.delays }

/-- Modelled from the spec: the default attempt bound of the executor. -/
def MAX_ATTEMPTS : Nat := 3

/-- Modelled from the spec: `execute(call, maxAttempts = 3)`. -/
def execute (call : Nat → HttpResponse) : ExecTrace :=
  executeGo call 0 MAX_ATTEMPTS

/-! ## Derived views used in theorem statements -/

/-- First-match view of the five scrape patterns: the patterns in their
fixed order, each capture unescaped the way its pattern family is in the
source (inline-JSON captures get the JSON unescaping, meta-tag captures get
the ampersand unescaping), returning the single asset of the first match. -/
def scrapeFirstPattern (mediaId : String) (html : String) : Option MediaInfo :=
  match captureQuoted ("\"video_url\":\"".toList) html.data with
  | some cap => some { id := mediaId, type := "video", url := jsUnescapeJson (String.mk cap) }
  | none =>
    match captureQuoted ("\"contentUrl\":\"".toList) html.data with
    | some cap => some { id := mediaId, type := "video", url := jsUnescapeJson (String.mk cap) }
    | none =>
      match metaCapture "og:video" html.data with
      | some cap => some { id := mediaId, type := "video", url := jsUnescapeAmp (String.mk cap) }
      | none =>
        match captureQuoted ("\"display_url\":\"".toList) html.data with
        | some cap =>
          some { id := mediaId, type := "image", url := jsUnescapeJson (String.mk cap) }
        | none =>
          (metaCapture "og:image" html.data).map
            (fun cap => { id := mediaId, type := "image", url := jsUnescapeAmp (String.mk cap) })

/-- Whether an optional array is present and nonempty, the guard shape
`xs && xs.length > 0` used by `parseApiMedia`. -/
def optHasHead {α : Type} : Option (List α) → Bool
  | some (_ :: _) => true
  | _ => false

/-- Whether a carousel child carries media of its own: a nonempty
`video_versions`, or an `image_versions2` with at least one candidate. -/
def childHasMedia (c : CarouselChild) : Bool :=
  optHasHead c.video_versions ||
    (match c.image_versions2 with
     | some iv => !iv.candidates.isEmpty
     | none => false)

/-- The kind `parseApiMedia` assigns to a carousel child from the child's
own fields: video when it has a nonempty `video_versions`, image otherwise. -/
def childKind (c : CarouselChild) : String :=
  if optHasHead c.video_versions then "video" else "image"

/-- A resolution outcome is structured: either a success, or a failure
carrying an error message. -/
def typedOutcome (r : DownloadResult) : Prop :=
  r.success = true ∨ r.error.isSome = true

/-! ## Concrete instances used by counterexamples and witnesses -/

/-- A valid post URL. -/
def sampleUrl : String := "https://instagram.com/p/ABC/"

/-- An environment in which every upstream fetch returns a non-ok response,
so every strategy fails. -/
def envAllFail : Env :=
  { graphql := .notOk, apiPrimary := .notOk, apiAlt := .notOk,
    page := .notOk, jsonEp := .notOk }

/-- A page body whose inline `video_url` JSON field holds a URL with
backslash-escaped slashes and an HTML-entity-escaped ampersand. -/
def htmlAmp : String :=
  "<html>\"video_url\":\"https:\\/\\/cdn.example\\/v.mp4?a=1&amp;b=2\"</html>"

/-- An API item whose only content is a single image candidate. -/
def itemImg : ApiItem :=
  { pk := some "9", image_versions2 := some { candidates := [{ url := "https://i.example/img.jpg" }] } }

/-- An environment in which the page fetch throws and the semi-public JSON
endpoint succeeds with `itemImg`. -/
def envThrowScrape : Env :=
  { graphql := .notOk, apiPrimary := .notOk, apiAlt := .notOk,
    page := .thrown "boom", jsonEp := .ok (some [itemImg]) }

/-- A carousel child holding one video version. -/
def chVideo1 : CarouselChild := { pk := some "1", video_versions := some [{ url := "v1" }] }

/-- A second carousel child holding one video version. -/
def chVideo2 : CarouselChild := { pk := some "2", video_versions := some [{ url := "v2" }] }

/-- A carousel child holding one image candidate. -/
def chImage3 : CarouselChild :=
  { pk := some "3", image_versions2 := some { candidates := [{ url := "i3" }] } }

/-- An API item whose carousel holds two video children and one image
child, in that order. -/
def itemVVI : ApiItem :=
  { pk := some "parent", carousel_media := some [chVideo1, chVideo2, chImage3] }

/-- An API item whose carousel holds a single child with no media fields. -/
def itemEmptyChild : ApiItem := { carousel_media := some [({} : CarouselChild)] }

/-- A failed resolution outcome. -/
def failedResult : DownloadResult := { success := false, error := some "upstream failed" }

/-- A successful resolution outcome carrying one asset. -/
def okResult : DownloadResult :=
  { success := true,
    media := some [{ id := "9", type := "image", url := "https://i.example/img.jpg" }] }

/-- A call sequence that is rate-limited on its first two attempts and
succeeds on the third. -/
def callRateLimitedTwice : Nat → HttpResponse :=
  fun i => if i < 2 then .rateLimited else .ok "payload"

/-! ## Shared lemmas -/

/-- After `n ≥ 1` concurrent arrivals for one key, exactly one chain
execution has started and all `n` callers await the single pending promise. -/
theorem arrivals_closed :
    ∀ n : Nat, 1 ≤ n → arrivals n = { execCount := 1, pending := true, waiters := n }
  | 1, _ => rfl
  | n + 2, _ => by
    have ih := arrivals_closed (n + 1) (by omega)
    show arrive (arrivals (n + 1)) = _
    rw [ih]
    rfl

/-- The common final step of the parsers: success forces a nonempty list. -/
theorem ite_finish_nonempty (l : List MediaInfo) (e : String) :
    ((if l.length > 0 then ({ success := true, media := some l } : DownloadResult)
      else { success := false, error := some e }).success = true) →
    ∃ m, (if l.length > 0 then ({ success := true, media := some l } : DownloadResult)
      else { success := false, error := some e }).media = some m ∧ 0 < m.length := by
  by_cases h : l.length > 0
  · rw [if_pos h]
    exact fun _ => ⟨l, rfl, h⟩
  · rw [if_neg h]
    intro hc
    simp at hc

/-- The common final step of the parsers always yields a structured outcome. -/
theorem ite_finish_typed (l : List MediaInfo) (e : String) :
    typedOutcome (if l.length > 0 then ({ success := true, media := some l } : DownloadResult)
      else { success := false, error := some e }) := by
  by_cases h : l.length > 0
  · rw [if_pos h]
    exact Or.inl rfl
  · rw [if_neg h]
    exact Or.inr rfl

/-- A successful `parseGraphQLMedia` carries a nonempty asset list. -/
theorem parseGraphQLMedia_success (m : GraphMedia) :
    (parseGraphQLMedia m).success = true →
    ∃ l, (parseGraphQLMedia m).media = some l ∧ 0 < l.length :=
  ite_finish_nonempty _ _

/-- A successful `parseApiMedia` carries a nonempty asset list. -/
theorem parseApiMedia_success (it : Option ApiItem) :
    (parseApiMedia it).success = true →
    ∃ l, (parseApiMedia it).media = some l ∧ 0 < l.length := by
  cases it with
  | none =>
    intro hc
    simp [parseApiMedia] at hc
  | some item => exact ite_finish_nonempty _ _

/-- `parseGraphQLMedia` always yields a structured outcome. -/
theorem parseGraphQLMedia_typed (m : GraphMedia) : typedOutcome (parseGraphQLMedia m) :=
  ite_finish_typed _ _

/-- `parseApiMedia` always yields a structured outcome. -/
theorem parseApiMedia_typed (it : Option ApiItem) : typedOutcome (parseApiMedia it) := by
  cases it with
  | none => exact Or.inr rfl
  | some item => exact ite_finish_typed _ _

/-- `scrapeMediaPage` on an ok page is the final guard over the extracted
assets. -/
theorem scrapeMediaPage_ok (url html : String) :
    scrapeMediaPage url (.ok html) =
      (if (scrapeExtract ((extractMediaId url).getD "unknown") html).length > 0 then
        { success := true,
          media := some (scrapeExtract ((extractMediaId url).getD "unknown") html) }
      else { success := false, error := some "No media found in page" }) := by
  simp only [scrapeMediaPage, scrapeMediaPageE]
  by_cases h : (scrapeExtract ((extractMediaId url).getD "unknown") html).length > 0 <;>
    simp [h, catchWith]

/-- A successful `tryGraphQLEndpoint` carries a nonempty asset list. -/
theorem tryGraphQLEndpoint_success (g : Fetched (Option GraphMedia)) :
    (tryGraphQLEndpoint g).success = true →
    ∃ l, (tryGraphQLEndpoint g).media = some l ∧ 0 < l.length := by
  cases g with
  | thrown e => intro h; simp [tryGraphQLEndpoint, tryGraphQLEndpointE, catchWith] at h
  | notOk => intro h; simp [tryGraphQLEndpoint, tryGraphQLEndpointE, catchWith] at h
  | ok d =>
    cases d with
    | none => intro h; simp [tryGraphQLEndpoint, tryGraphQLEndpointE, catchWith] at h
    | some m => exact parseGraphQLMedia_success m

/-- A successful `tryApiEndpoint` carries a nonempty asset list. -/
theorem tryApiEndpoint_success (primary alt : Fetched (Option (List ApiItem))) :
    (tryApiEndpoint primary alt).success = true →
    ∃ l, (tryApiEndpoint primary alt).media = some l ∧ 0 < l.length := by
  cases primary with
  | thrown e => intro h; simp [tryApiEndpoint, tryApiEndpointE, catchWith] at h
  | ok d => exact parseApiMedia_success _
  | notOk =>
    cases alt with
    | thrown e => intro h; simp [tryApiEndpoint, tryApiEndpointE, catchWith] at h
    | notOk => intro h; simp [tryApiEndpoint, tryApiEndpointE, catchWith] at h
    | ok d => exact parseApiMedia_success _

/-- A successful `tryJsonEndpoint` carries a nonempty asset list. -/
theorem tryJsonEndpoint_success (j : Fetched (Option (List ApiItem))) :
    (tryJsonEndpoint j).success = true →
    ∃ l, (tryJsonEndpoint j).media = some l ∧ 0 < l.length := by
  cases j with
  | thrown e => intro h; simp [tryJsonEndpoint, tryJsonEndpointE, catchWith] at h
  | notOk => intro h; simp [tryJsonEndpoint, tryJsonEndpointE, catchWith] at h
  | ok d =>
    match d with
    | none => intro h; simp [tryJsonEndpoint, tryJsonEndpointE, catchWith] at h
    | some [] => intro h; simp [tryJsonEndpoint, tryJsonEndpointE, catchWith] at h
    | some (item0 :: rest) =>
      show (parseApiMedia (some item0)).success = true → _
      exact parseApiMedia_success (some item0)

/-- A successful `scrapeMediaPage` carries a nonempty asset list. -/
theorem scrapeMediaPage_success (url : String) (page : Fetched String) :
    (scrapeMediaPage url page).success = true →
    ∃ l, (scrapeMediaPage url page).media = some l ∧ 0 < l.length := by
  cases page with
  | thrown e => intro h; simp [scrapeMediaPage, scrapeMediaPageE, catchWith] at h
  | notOk => intro h; simp [scrapeMediaPage, scrapeMediaPageE, catchWith] at h
  | ok html =>
    rw [scrapeMediaPage_ok]
    exact ite_finish_nonempty _ _

/-- `tryGraphQLEndpoint` always yields a structured outcome. -/
theorem tryGraphQLEndpoint_typed (g : Fetched (Option GraphMedia)) :
    typedOutcome (tryGraphQLEndpoint g) := by
  cases g with
  | thrown e => exact Or.inr rfl
  | notOk => exact Or.inr rfl
  | ok d =>
    cases d with
    | none => exact Or.inr rfl
    | some m => exact parseGraphQLMedia_typed m

/-- `tryApiEndpoint` always yields a structured outcome. -/
theorem tryApiEndpoint_typed (primary alt : Fetched (Option (List ApiItem))) :
    typedOutcome (tryApiEndpoint primary alt) := by
  cases primary with
  | thrown e => exact Or.inr rfl
  | ok d => exact parseApiMedia_typed _
  | notOk =>
    cases alt with
    | thrown e => exact Or.inr rfl
    | notOk => exact Or.inr rfl
    | ok d => exact parseApiMedia_typed _

/-- `tryJsonEndpoint` always yields a structured outcome. -/
theorem tryJsonEndpoint_typed (j : Fetched (Option (List ApiItem))) :
    typedOutcome (tryJsonEndpoint j) := by
  cases j with
  | thrown e => exact Or.inr rfl
  | notOk => exact Or.inr rfl
  | ok d =>
    match d with
    | none => exact Or.inr rfl
    | some [] => exact Or.inr rfl
    | some (item0 :: rest) =>
      show typedOutcome (parseApiMedia (some item0))
      exact parseApiMedia_typed (some item0)

/-- `scrapeMediaPage` always yields a structured outcome. -/
theorem scrapeMediaPage_typed (url : String) (page : Fetched String) :
    typedOutcome (scrapeMediaPage url page) := by
  cases page with
  | thrown e => exact Or.inr rfl
  | notOk => exact Or.inr rfl
  | ok html =>
    rw [scrapeMediaPage_ok]
    exact ite_finish_typed _ _

/-- Every strategy result is structured. -/
theorem stratRun_typed (url : String) (env : Env) (s : Strat) :
    typedOutcome (stratRun url env s) := by
  cases s with
  | graphQL => exact tryGraphQLEndpoint_typed env.graphql
  | mobileApi => exact tryApiEndpoint_typed env.apiPrimary env.apiAlt
  | pageScrape => exact scrapeMediaPage_typed url env.page
  | semiPublicJson => exact tryJsonEndpoint_typed env.jsonEp

/-- Every successful strategy result carries a nonempty asset list. -/
theorem stratRun_success (url : String) (env : Env) (s : Strat) :
    (stratRun url env s).success = true →
    ∃ l, (stratRun url env s).media = some l ∧ 0 < l.length := by
  cases s with
  | graphQL => exact tryGraphQLEndpoint_success env.graphql
  | mobileApi => exact tryApiEndpoint_success env.apiPrimary env.apiAlt
  | pageScrape => exact scrapeMediaPage_success url env.page
  | semiPublicJson => exact tryJsonEndpoint_success env.jsonEp

/-- A successful ordered fallback with an unsuccessful fallback result is
the result of one of the listed strategies. -/
theorem runChain_success (f : Strat → DownloadResult) (fb : DownloadResult)
    (ss : List Strat) (hfb : fb.success = false) :
    (runChain f fb ss).1.success = true →
    ∃ s ∈ ss, (runChain f fb ss).1 = f s := by
  induction ss with
  | nil =>
    intro h
    rw [runChain] at h
    simp only at h
    rw [hfb] at h
    exact absurd h (by simp)
  | cons a rest ih =>
    intro h
    rw [runChain] at h ⊢
    by_cases ha : (f a).success
    · rw [if_pos ha] at h ⊢
      exact ⟨a, by simp, rfl⟩
    · rw [if_neg ha] at h ⊢
      simp only at h ⊢
      obtain ⟨s, hs, he⟩ := ih h
      exact ⟨s, by simp [hs], he⟩

/-- An ordered fallback over structured strategies with a structured
fallback is structured. -/
theorem runChain_typed (f : Strat → DownloadResult) (fb : DownloadResult)
    (ss : List Strat) (hf : ∀ s, typedOutcome (f s)) (hfb : typedOutcome fb) :
    typedOutcome (runChain f fb ss).1 := by
  induction ss with
  | nil => exact hfb
  | cons a rest ih =>
    rw [runChain]
    by_cases ha : (f a).success
    · rw [if_pos ha]
      exact hf a
    · rw [if_neg ha]
      exact ih

/-- `getMediaInfoT` on a classifiable URL is the ordered fallback over the
credential-dependent strategy list, short-circuiting on first success. -/
theorem getMediaInfoT_chain (url : String) (sid : Option String) (env : Env)
    (mid : String) (h : extractMediaId url = some mid) :
    getMediaInfoT url sid env =
      runChain (stratRun url env) (exhaustedFailure sid) (chainOrder sid) := by
  unfold getMediaInfoT chainOrder
  rw [h]
  by_cases hs : jsTruthy sid <;>
    by_cases h1 : (tryGraphQLEndpoint env.graphql).success <;>
    by_cases h2 : (tryApiEndpoint env.apiPrimary env.apiAlt).success <;>
    by_cases h3 : (scrapeMediaPage url env.page).success <;>
    by_cases h4 : (tryJsonEndpoint env.jsonEp).success <;>
    simp [hs, h1, h2, h3, h4, runChain, stratRun]

/-- `getMediaInfo` always returns a structured outcome: a success, or a
failure carrying an error message. -/
theorem getMediaInfo_typed (u : String) (s : Option String) (en : Env) :
    typedOutcome (getMediaInfo u s en) := by
  cases hm : extractMediaId u with
  | none => exact Or.inr (by simp [getMediaInfo, getMediaInfoT, hm])
  | some mid =>
    have hc := getMediaInfoT_chain u s en mid hm
    unfold getMediaInfo
    rw [hc]
    exact runChain_typed _ _ _ (stratRun_typed u en) (Or.inr rfl)

/-- A carousel child carrying media contributes exactly one asset, whose
kind is determined by the child's own fields. -/
theorem parseCarouselChild_of_media (c : CarouselChild) (h : childHasMedia c = true) :
    (parseCarouselChild c).length = 1 ∧
    (parseCarouselChild c).map (fun a => a.type) = [childKind c] := by
  rcases hv : c.video_versions with _ | ⟨_ | ⟨v, vs⟩⟩ <;>
    rcases hi : c.image_versions2 with _ | ⟨⟨_ | ⟨cand, cands⟩⟩⟩ <;>
    simp_all [parseCarouselChild, childHasMedia, childKind, optHasHead]

/-- When every carousel child carries media, the enumeration yields exactly
one asset per child. -/
theorem flatMap_children_length (children : List CarouselChild)
    (h : ∀ c ∈ children, childHasMedia c = true) :
    (children.flatMap parseCarouselChild).length = children.length := by
  induction children with
  | nil => rfl
  | cons c cs ih =>
    rw [List.flatMap_cons, List.length_append,
      (parseCarouselChild_of_media c (h c (by simp))).1,
      ih (fun x hx => h x (by simp [hx]))]
    simp [Nat.add_comm]

/-- When every carousel child carries media, the asset kinds are, in order,
the kinds of the children. -/
theorem flatMap_children_types (children : List CarouselChild)
    (h : ∀ c ∈ children, childHasMedia c = true) :
    (children.flatMap parseCarouselChild).map (fun a => a.type) =
      children.map childKind := by
  induction children with
  | nil => rfl
  | cons c cs ih =>
    rw [List.flatMap_cons, List.map_append,
      (parseCarouselChild_of_media c (h c (by simp))).2,
      ih (fun x hx => h x (by simp [hx]))]
    rfl

/-! ## Claims -/

/-- C1, as stated, is false on the code: with no credential, the fixed
order would still try StructuredEndpointStrategy before PageScrapeStrategy
and SemiPublicJsonStrategy, so three strategies would be attempted when all
fail; the code gates both of its first two strategies (the GraphQL endpoint
and the mobile-API endpoint) on the credential, so a credential-less run
that exhausts the chain attempts exactly the two strategies
PageScrapeStrategy and SemiPublicJsonStrategy and no structured endpoint is
ever queried. -/
theorem resolve_order_counterexample :
    (getMediaInfoT sampleUrl none envAllFail).2 = [Strat.pageScrape, Strat.semiPublicJson] ∧
    Strat.graphQL ∉ (getMediaInfoT sampleUrl none envAllFail).2 ∧
    Strat.mobileApi ∉ (getMediaInfoT sampleUrl none envAllFail).2 ∧
    (getMediaInfoT sampleUrl none envAllFail).2.length = 2 := by
  decide

/-- C1 (amended): for every classifiable reference, `getMediaInfo` is the
ordered fallback over the credential-dependent strategy list — GraphQL
endpoint (only when a credential is present), mobile-API endpoint (only
when a credential is present), page scrape, then semi-public JSON — and
short-circuits: the first strategy returning success is returned and no
later strategy runs. -/
theorem resolve_strategy_order_amended (url : String) (sid : Option String)
    (env : Env) (mid : String) (h : extractMediaId url = some mid) :
    getMediaInfoT url sid env =
      runChain (stratRun url env) (exhaustedFailure sid) (chainOrder sid) :=
  getMediaInfoT_chain url sid env mid h

/-- Witness for C1 (amended) at a concrete URL and environment. -/
theorem resolve_strategy_order_amended_witness :
    getMediaInfoT sampleUrl none envAllFail =
      runChain (stratRun sampleUrl envAllFail) (exhaustedFailure none) (chainOrder none) :=
  resolve_strategy_order_amended sampleUrl none envAllFail "ABC" (by decide)

/-- C2, as stated, is false on the code: the dedup key is not
(contentId, credential-presence) but the raw-URL cache key
`getCacheKey(url, sessionId)`.  Two concurrent callers whose URLs differ
only by a trailing slash share the content id `ABC` and are both
credential-less, yet they register two separate pending promises and start
two strategy-chain executions, not one. -/
theorem dedup_key_counterexample :
    extractMediaId "https://instagram.com/p/ABC" = some "ABC" ∧
    extractMediaId "https://instagram.com/p/ABC/" = some "ABC" ∧
    (arrivalsAt [("https://instagram.com/p/ABC", none),
      ("https://instagram.com/p/ABC/", none)]).execCount = 2 := by
  decide

/-- C2 (amended): when `n ≥ 1` resolve calls for the same route key —
`getCacheKey(url, sessionId)`, the raw URL plus credential presence —
arrive before any completes, exactly one strategy-chain execution starts,
and when the shared promise settles all `n` callers receive the same
outcome; calls whose raw URLs differ deduplicate separately even when their
content ids agree. -/
theorem dedup_single_execution (n : Nat) (r : DownloadResult) (h : 1 ≤ n) :
    (arrivals n).execCount = 1 ∧
    settle (arrivals n) r =
      ({ execCount := 1, pending := false, waiters := 0 }, List.replicate n r) := by
  rw [arrivals_closed n h]
  exact ⟨rfl, rfl⟩

/-- Witness for C2 with ten concurrent callers. -/
theorem dedup_single_execution_witness :
    (arrivals 10).execCount = 1 ∧
    settle (arrivals 10) okResult =
      ({ execCount := 1, pending := false, waiters := 0 }, List.replicate 10 okResult) :=
  dedup_single_execution 10 okResult (by decide)

/-- C3: no parser and no resolver path returns success with zero assets —
a successful `parseGraphQLMedia`, `parseApiMedia`, `scrapeMediaPage` or
`getMediaInfo` always carries a nonempty media list. -/
theorem success_never_empty (m : GraphMedia) (it : Option ApiItem)
    (purl : String) (page : Fetched String)
    (url : String) (sid : Option String) (env : Env) :
    ((parseGraphQLMedia m).success = true →
      ∃ l, (parseGraphQLMedia m).media = some l ∧ 0 < l.length) ∧
    ((parseApiMedia it).success = true →
      ∃ l, (parseApiMedia it).media = some l ∧ 0 < l.length) ∧
    ((scrapeMediaPage purl page).success = true →
      ∃ l, (scrapeMediaPage purl page).media = some l ∧ 0 < l.length) ∧
    ((getMediaInfo url sid env).success = true →
      ∃ l, (getMediaInfo url sid env).media = some l ∧ 0 < l.length) := by
  refine ⟨parseGraphQLMedia_success m, parseApiMedia_success it,
    scrapeMediaPage_success purl page, ?_⟩
  intro hs
  cases hm : extractMediaId url with
  | none => simp [getMediaInfo, getMediaInfoT, hm] at hs
  | some mid =>
    have hc := getMediaInfoT_chain url sid env mid hm
    unfold getMediaInfo at hs ⊢
    rw [hc] at hs ⊢
    obtain ⟨s, _, he⟩ := runChain_success (stratRun url env) (exhaustedFailure sid)
      (chainOrder sid) rfl hs
    rw [he] at hs ⊢
    exact stratRun_success url env s hs

/-- Witness for C3 at a concrete success through the scrape strategy. -/
theorem success_never_empty_witness :
    ∃ l, (getMediaInfo sampleUrl none
      { envAllFail with page := .ok htmlAmp }).media = some l ∧ 0 < l.length :=
  (success_never_empty
    { id := "g", __typename := "GraphImage", is_video := false,
      video_url := "v", display_url := "d" }
    none sampleUrl (.notOk) sampleUrl none
    { envAllFail with page := .ok htmlAmp }).2.2.2 (by decide)

/-- C4, as stated, is false on the code: the cache key is built from the
raw URL, not from the extracted content id — two URLs with the same content
id and the same credential presence get different keys. -/
theorem cache_key_counterexample :
    extractMediaId "https://instagram.com/p/ABC" = some "ABC" ∧
    extractMediaId "https://instagram.com/p/ABC/" = some "ABC" ∧
    getCacheKey "https://instagram.com/p/ABC" none ≠
      getCacheKey "https://instagram.com/p/ABC/" none := by
  decide

/-- C4 (amended): the cache and dedup key is (raw URL, credential
presence); for every pair of requests that differ in credential presence
the keys differ, so a result obtained with a credential is never stored
under — and never served from — the key of a credential-less request, and
vice versa. -/
theorem cache_key_credential_separation (u1 u2 : String) (s1 s2 : Option String)
    (h1 : jsTruthy s1 = true) (h2 : jsTruthy s2 = false) :
    getCacheKey u1 s1 ≠ getCacheKey u2 s2 := by
  unfold getCacheKey
  rw [h1, h2, if_pos rfl, if_neg (by decide)]
  intro hk
  have h3 := congrArg (fun s => s.data.getLast?) hk
  simp only [String.data_append, List.getLast?_append] at h3
  rw [show (("auth" : String).data).getLast? = some 'h' from rfl,
      show (("public" : String).data).getLast? = some 'c' from rfl] at h3
  simp at h3

/-- Witness for C4 (amended) at a concrete URL. -/
theorem cache_key_credential_separation_witness :
    getCacheKey sampleUrl (some "sid") ≠ getCacheKey sampleUrl none :=
  cache_key_credential_separation sampleUrl sampleUrl (some "sid") none (by decide) (by decide)

/-- C5: only successes carrying media are written to the cache, with the
fixed five-minute TTL; a failed resolution leaves the cache unchanged. -/
theorem cache_only_success_with_ttl (cache : Cache) (cacheKey : String)
    (result : DownloadResult) (now : Nat) :
    (result.success = false → cacheAfterResolve cache cacheKey result now = cache) ∧
    (result.success = true → result.media.isSome = true →
      cacheAfterResolve cache cacheKey result now cacheKey =
        some { data := result, expires := now + 5 * 60 * 1000 } ∧
      ∀ k, k ≠ cacheKey → cacheAfterResolve cache cacheKey result now k = cache k) := by
  constructor
  · intro hf
    unfold cacheAfterResolve
    rw [hf]
    simp
  · intro hs hm
    have hcond : (result.success && result.media.isSome) = true := by
      rw [hs, hm]
      rfl
    unfold cacheAfterResolve
    rw [if_pos hcond]
    constructor
    · unfold setCachedMedia
      rw [if_pos rfl]
      rfl
    · intro k hkne
      unfold setCachedMedia
      rw [if_neg hkne]

/-- Witness for C5: a failure writes nothing, a success is stored with the
five-minute expiry. -/
theorem cache_only_success_with_ttl_witness :
    cacheAfterResolve (fun _ => none) "k" failedResult 0 = (fun _ => none) ∧
    cacheAfterResolve (fun _ => none) "k" okResult 0 "k" =
      some { data := okResult, expires := 0 + 5 * 60 * 1000 } :=
  ⟨(cache_only_success_with_ttl (fun _ => none) "k" failedResult 0).1 rfl,
   ((cache_only_success_with_ttl (fun _ => none) "k" okResult 0).2 rfl rfl).1⟩

/-- C6 (modelled from the spec, no retry executor exists in the sources):
the executor runs at most `MAX_ATTEMPTS = 3` attempts, retries rate-limited
responses after `2^attempt * 1000` ms, and a call rate-limited on its first
two attempts and successful on the third yields the success with exactly
three underlying attempts and the exponential delay pattern. -/
theorem execute_rate_limit_retries (call : Nat → HttpResponse) (body : String)
    (h0 : call 0 = .rateLimited) (h1 : call 1 = .rateLimited) (h2 : call 2 = .ok body) :
    MAX_ATTEMPTS = 3 ∧
    execute call =
      { result := .success (.ok body), attempts := 3,
        delays := [2 ^ 0 * 1000, 2 ^ 1 * 1000] } := by
  refine ⟨rfl, ?_⟩
  simp [execute, MAX_ATTEMPTS, executeGo, h0, h1, h2]

/-- Witness for C6 at a concrete call sequence. -/
theorem execute_rate_limit_retries_witness :
    MAX_ATTEMPTS = 3 ∧
    execute callRateLimitedTwice =
      { result := .success (.ok "payload"), attempts := 3,
        delays := [2 ^ 0 * 1000, 2 ^ 1 * 1000] } :=
  execute_rate_limit_retries callRateLimitedTwice "payload" rfl rfl rfl

/-- C7: a strategy that throws is converted to a structured failure and
does not abort the chain — when the page fetch throws, the page-scrape
strategy returns its fixed failure, and if it was attempted the semi-public
JSON strategy is still attempted and its success becomes the overall
outcome; moreover every resolve returns a typed outcome (success, or a
failure with an error message), never a propagated exception. -/
theorem strategy_throw_isolated (url : String) (sid : Option String) (env : Env)
    (e mid : String) (hm : extractMediaId url = some mid)
    (hp : env.page = .thrown e)
    (hj : (tryJsonEndpoint env.jsonEp).success = true) :
    scrapeMediaPage url env.page =
      { success := false, error := some "Failed to scrape page" } ∧
    (Strat.pageScrape ∈ (getMediaInfoT url sid env).2 →
      Strat.semiPublicJson ∈ (getMediaInfoT url sid env).2 ∧
      getMediaInfo url sid env = tryJsonEndpoint env.jsonEp) ∧
    (∀ (u2 : String) (s2 : Option String) (e2 : Env),
      typedOutcome (getMediaInfo u2 s2 e2)) := by
  have hscrape : scrapeMediaPage url env.page =
      { success := false, error := some "Failed to scrape page" } := by
    rw [hp]; rfl
  refine ⟨hscrape, ?_, getMediaInfo_typed⟩
  by_cases hT : jsTruthy sid <;>
    by_cases h1 : (tryGraphQLEndpoint env.graphql).success <;>
    by_cases h2 : (tryApiEndpoint env.apiPrimary env.apiAlt).success <;>
    simp [getMediaInfo, getMediaInfoT, hm, hscrape, hj, hT, h1, h2]

/-- Witness for C7: the page fetch throws, the JSON endpoint succeeds, and
the overall outcome is the JSON strategy's success. -/
theorem strategy_throw_isolated_witness :
    Strat.semiPublicJson ∈ (getMediaInfoT sampleUrl none envThrowScrape).2 ∧
    getMediaInfo sampleUrl none envThrowScrape = tryJsonEndpoint envThrowScrape.jsonEp :=
  (strategy_throw_isolated sampleUrl none envThrowScrape "boom" "ABC"
    (by decide) rfl (by decide)).2.1 (by decide)

/-- C8, as stated, is false on the code: the unescaping is not consistent
across patterns.  On a page whose inline `video_url` field holds a URL with
an HTML-entity-escaped ampersand, the extracted URL keeps `&amp;`
undecoded, because the inline-JSON patterns decode only `&` and `\/`. -/
theorem scrape_unescape_counterexample :
    scrapeExtract "ABC" htmlAmp =
      [{ id := "ABC", type := "video", url := "https://cdn.example/v.mp4?a=1&amp;b=2" }] ∧
    containsSub ("&amp;".toList) ("https://cdn.example/v.mp4?a=1&amp;b=2".data) = true := by
  decide

/-- C8 (amended): the five extraction patterns are applied in the fixed
order inline video-url field, JSON-LD content URL, Open Graph video meta
tag, inline display-url field, Open Graph image meta tag; exactly one asset
is built from the first matching pattern; captures from the three
inline-JSON patterns decode `&` and `\/`, captures from the two meta
tag patterns decode `&amp;`. -/
theorem scrape_pattern_order_amended (mediaId html : String) :
    scrapeExtract mediaId html = (scrapeFirstPattern mediaId html).toList := by
  unfold scrapeExtract scrapeFirstPattern
  cases hq1 : captureQuoted ("\"video_url\":\"".toList) html.data with
  | some cap => simp [hq1]
  | none =>
    simp only [hq1]
    cases hq2 : captureQuoted ("\"contentUrl\":\"".toList) html.data with
    | some cap => simp [hq2]
    | none =>
      simp only [hq2]
      cases hq3 : metaCapture "og:video" html.data with
      | some cap => simp [hq3]
      | none =>
        simp only [hq3]
        cases hq4 : captureQuoted ("\"display_url\":\"".toList) html.data with
        | some cap => simp [hq4]
        | none =>
          simp only [hq4]
          cases hq5 : metaCapture "og:image" html.data with
          | some cap => simp [hq5]
          | none => simp [hq5]

/-- C9, as stated, is false on the code: a carousel child with no media
fields of its own is skipped, so an item whose single carousel child is
empty yields a failure, not a success with one asset per child. -/
theorem carousel_counterexample :
    parseApiMedia (some itemEmptyChild) =
      { success := false, error := some "Could not parse media from API response" } := by
  decide

/-- C9 (amended): for an item without top-level video versions whose
carousel children each carry media of their own, `parseApiMedia` returns a
success with exactly one asset per child, preserving input order, each
child classified as video or image from its own fields. -/
theorem carousel_extraction_amended (item : ApiItem) (children : List CarouselChild)
    (hv : optHasHead item.video_versions = false)
    (hc : item.carousel_media = some children)
    (hne : children ≠ [])
    (hwf : ∀ c ∈ children, childHasMedia c = true) :
    parseApiMedia (some item) =
      { success := true, media := some (children.flatMap parseCarouselChild) } ∧
    (children.flatMap parseCarouselChild).length = children.length ∧
    (children.flatMap parseCarouselChild).map (fun a => a.type) =
      children.map childKind := by
  have hlen := flatMap_children_length children hwf
  have htypes := flatMap_children_types children hwf
  refine ⟨?_, hlen, htypes⟩
  have hpos : (children.flatMap parseCarouselChild).length > 0 := by
    rw [hlen]
    cases children with
    | nil => exact absurd rfl hne
    | cons c cs => simp
  rcases children with _ | ⟨c, cs⟩
  · exact absurd rfl hne
  · rcases hvv : item.video_versions with _ | ⟨_ | ⟨v, vs⟩⟩
    · simp only [parseApiMedia, hvv, hc]
      rw [if_pos hpos]
    · simp only [parseApiMedia, hvv, hc]
      rw [if_pos hpos]
    · rw [hvv] at hv
      simp [optHasHead] at hv

/-- Witness for C9 (amended): three children (two video, one image) yield
exactly three assets with kinds video, video, image, in order. -/
theorem carousel_extraction_amended_witness :
    parseApiMedia (some itemVVI) =
      { success := true,
        media := some ([chVideo1, chVideo2, chImage3].flatMap parseCarouselChild) } ∧
    ([chVideo1, chVideo2, chImage3].flatMap parseCarouselChild).length = 3 ∧
    ([chVideo1, chVideo2, chImage3].flatMap parseCarouselChild).map (fun a => a.type) =
      ["video", "video", "image"] := by
  have h := carousel_extraction_amended itemVVI [chVideo1, chVideo2, chImage3]
    (by decide) rfl (by decide) (by decide)
  exact ⟨h.1, h.2.1.trans (by decide), h.2.2.trans (by decide)⟩

/-- C10: calling `getMediaInfo` with the empty string as credential behaves
identically to calling it with no credential — the instrumented run (result
and attempted strategies) is the same, no `Cookie` header is attached by the
web-header builder, and the cache key is tagged `public`. -/
theorem empty_session_equals_absent (url : String) (env : Env) :
    getMediaInfoT url (some "") env = getMediaInfoT url none env ∧
    buildWebHeaders (some "") = buildWebHeaders none ∧
    (∀ p ∈ buildWebHeaders (some ""), p.1 ≠ "Cookie") ∧
    getCacheKey url (some "") = getCacheKey url none ∧
    getCacheKey url (some "") = url ++ ":" ++ "public" :=
  ⟨rfl, rfl, by decide, rfl, rfl⟩

end Insta
